import Mathlib

/-!
# Verification of the Stock Market Alert System

A shallow embedding of the alert-evaluation and technical-indicator code of
the Stock-Market-Alert-System repository, together with proofs settling the
specification claims about it.

JavaScript numbers are modelled as exact rationals (`ℚ`), `Date` values and
millisecond timestamps as integers (`ℤ`), `null`-able values as `Option`,
and functions that may return `null` as `Option`-valued functions.
JavaScript truthiness tests on numbers (`!x`) are modelled faithfully:
`!x` is true exactly when `x` is `null` or `0`.
-/

namespace StockAlert

/-! ## Technical indicators

From `TechnicalIndicators` (shared verbatim between the route file and
`server/services/stockService.js`).
-/

/-- `calculateSMA(prices, period)`: `null` when fewer than `period` prices,
else the mean of the last `period` prices (`prices.slice(-period)`). -/
def calculateSMA (prices : List ℚ) (period : ℕ) : Option ℚ :=
  if prices.length < period then none
  else some ((prices.drop (prices.length - period)).sum / period)

/-- `calculateEMA(prices, period)`: `null` when fewer than `period` prices,
else the fold of `ema = (price - ema) * multiplier + ema` over the prices
after the first `period`, seeded with the mean of the first `period` prices,
with `multiplier = 2 / (period + 1)`. -/
def calculateEMA (prices : List ℚ) (period : ℕ) : Option ℚ :=
  if prices.length < period then none
  else
    let multiplier : ℚ := 2 / (period + 1)
    let seed : ℚ := (prices.take period).sum / period
    some ((prices.drop period).foldl (fun ema p => (p - ema) * multiplier + ema) seed)

/-- `calculateRSI(prices, period = 14)`: `null` when fewer than `period + 1`
prices; otherwise per-step changes `prices[i] - prices[i-1]` are computed over
the whole series, split into gains (`change > 0 ? change : 0`) and losses
(`change < 0 ? Math.abs(change) : 0`), the last `period` of each are averaged,
and the result is `100` when the average loss is `0`, else
`100 - 100 / (1 + avgGain / avgLoss)`. -/
def calculateRSI (prices : List ℚ) (period : ℕ) : Option ℚ :=
  if prices.length < period + 1 then none
  else
    let changes := List.zipWith (fun a b => a - b) prices.tail prices
    let gains := changes.map (fun c => if 0 < c then c else 0)
    let losses := changes.map (fun c => if c < 0 then |c| else 0)
    if gains.length < period then none
    else
      let avgGain := (gains.drop (gains.length - period)).sum / period
      let avgLoss := (losses.drop (losses.length - period)).sum / period
      if avgLoss = 0 then some 100
      else some (100 - 100 / (1 + avgGain / avgLoss))

/-- Result shape of `calculateMACD` in the route file: the MACD line together
with the (never computed) signal line and histogram. -/
structure MACDResult where
  macd : ℚ
  signal : Option ℚ
  histogram : Option ℚ
  deriving DecidableEq, Repr

/-- `calculateMACD(prices, fastPeriod = 12, slowPeriod = 26, ...)`: `null`
when fewer than `slowPeriod` prices; the two EMAs are computed and the
JavaScript guard `if (!ema12 || !ema26) return null` rejects an EMA that is
`null` or `0` (a falsy number); otherwise the MACD line is their difference
and `signal` and `histogram` are returned as `null`. -/
def calculateMACD (prices : List ℚ) (fastPeriod slowPeriod : ℕ) : Option MACDResult :=
  if prices.length < slowPeriod then none
  else
    match calculateEMA prices fastPeriod, calculateEMA prices slowPeriod with
    | some ema12, some ema26 =>
        if ema12 = 0 ∨ ema26 = 0 then none
        else some ⟨ema12 - ema26, none, none⟩
    | _, _ => none

/-- `calculateBollingerBands(prices, period = 20, multiplier = 2)`: `null`
when fewer than `period` prices; the JavaScript guard `if (!sma) return null`
rejects an SMA that is `null` or `0`; otherwise the population variance of the
last `period` prices around the SMA is taken, and the bands are
`sma ± multiplier * Math.sqrt(variance)` (upper, middle, lower). -/
noncomputable def calculateBollingerBands (prices : List ℚ) (period : ℕ)
    (multiplier : ℚ) : Option (ℝ × ℝ × ℝ) :=
  if prices.length < period then none
  else
    match calculateSMA prices period with
    | none => none
    | some sma =>
        if sma = 0 then none
        else
          let recentPrices := prices.drop (prices.length - period)
          let variance : ℚ := (recentPrices.map (fun p => (p - sma) ^ 2)).sum / period
          let stdDev : ℝ := Real.sqrt (variance : ℝ)
          some ((sma : ℝ) + (multiplier : ℝ) * stdDev, (sma : ℝ),
                (sma : ℝ) - (multiplier : ℝ) * stdDev)

/-! ## The `Alert` model of `models/Alert.js` (price/indicator alerts)

Fields of the first `alertSchema`; `Date` values are integer timestamps in
milliseconds, optional/unset fields are `Option`, and an unset `description`
is the empty string (falsy in JavaScript).
-/

structure Alert1 where
  symbol : String
  alertType : String
  condition : String
  targetValue : ℚ
  indicatorType : Option String
  indicatorPeriod : ℕ
  description : String
  message : Option String
  isActive : Bool
  emailNotification : Bool
  smsNotification : Bool
  pushNotification : Bool
  triggered : Bool
  triggeredAt : Option ℤ
  triggeredValue : Option ℚ
  triggerCount : ℕ
  lastChecked : Option ℤ
  expiresAt : Option ℤ
  frequency : ℕ
  deriving DecidableEq, Repr

namespace Alert1

/-- Whether `this.expiresAt && this.expiresAt < new Date()` holds at `now`. -/
def expiryPassed (a : Alert1) (now : ℤ) : Bool :=
  match a.expiresAt with
  | some t => decide (t < now)
  | none => false

/-- The `status` virtual of the first schema:
`inactive` when not active, else `triggered` when the `triggered` flag is set,
else `expired` when `expiresAt` is set and in the past, else `active`. -/
def status (a : Alert1) (now : ℤ) : String :=
  if !a.isActive then "inactive"
  else if a.triggered then "triggered"
  else if a.expiryPassed now then "expired"
  else "active"

/-- `alertSchema.methods.shouldTrigger(currentValue, previousValue = null)`:
false when inactive, already triggered, or expired; otherwise dispatch on the
condition string, where `equals` tolerates an absolute difference below
`0.01` and the two crossing conditions require a non-null previous value. -/
def shouldTrigger (a : Alert1) (now : ℤ) (currentValue : ℚ)
    (previousValue : Option ℚ) : Bool :=
  if !a.isActive || a.triggered then false
  else if a.expiryPassed now then false
  else
    let target := a.targetValue
    if a.condition = "above" then decide (currentValue > target)
    else if a.condition = "below" then decide (currentValue < target)
    else if a.condition = "equals" then decide (|currentValue - target| < 1/100)
    else if a.condition = "crosses_above" then
      match previousValue with
      | some prev => decide (prev ≤ target) && decide (currentValue > target)
      | none => false
    else if a.condition = "crosses_below" then
      match previousValue with
      | some prev => decide (prev ≥ target) && decide (currentValue < target)
      | none => false
    else false

/-- The `pre('save')` middleware of the first schema: refresh `lastChecked`
on a modified existing document, and default the description from the
symbol, the condition (underscores replaced by spaces) and the target. -/
def preSave (a : Alert1) (now : ℤ) (isNew isModified : Bool) : Alert1 :=
  let a := if isModified && !isNew then { a with lastChecked := some now } else a
  if a.description = "" then
    { a with description :=
        a.symbol ++ " " ++ a.condition.replace "_" " " ++ " " ++ toString a.targetValue }
  else a

/-- `alertSchema.methods.trigger()`: set the `triggered` flag, record the
trigger time, bump `triggerCount`, refresh `lastChecked`, then save (which
runs the pre-save middleware on a modified, non-new document). -/
def trigger (a : Alert1) (now : ℤ) : Alert1 :=
  preSave { a with
    triggered := true
    triggeredAt := some now
    triggerCount := a.triggerCount + 1
    lastChecked := some now } now false true

end Alert1

/-! ## The second `Alert` schema (indicator-condition alerts with cooldown) -/

structure Alert2 where
  symbol : String
  alertType : String
  condIndicator : String
  condOperator : String
  condValue : ℚ
  condTimeframe : String
  isActive : Bool
  triggerCount : ℕ
  lastTriggered : Option ℤ
  cooldownPeriod : ℤ
  emailEnabled : Bool
  emailLastSent : Option ℤ
  inAppEnabled : Bool
  inAppLastSent : Option ℤ
  description : String
  tags : List String
  deriving DecidableEq, Repr

namespace Alert2

/-- The `status` virtual of the second schema: `inactive` when not active,
else `triggered` when `lastTriggered` is set, else `active`. -/
def status (a : Alert2) : String :=
  if !a.isActive then "inactive"
  else if a.lastTriggered.isSome then "triggered"
  else "active"

/-- The `isInCooldown` virtual: false when the alert never triggered, else
whether fewer than `cooldownPeriod` minutes have elapsed since the last
trigger (`Date.now() - lastTriggered < cooldownPeriod * 60 * 1000`). -/
def isInCooldown (a : Alert2) (now : ℤ) : Bool :=
  match a.lastTriggered with
  | none => false
  | some t => decide (now - t < a.cooldownPeriod * 60 * 1000)

/-- `alertSchema.methods.canTrigger()`: active and not in cooldown. -/
def canTrigger (a : Alert2) (now : ℤ) : Bool :=
  a.isActive && !a.isInCooldown now

/-- The `conditionText` virtual: human-readable rendering of the condition. -/
def conditionText (a : Alert2) : String :=
  let operatorText :=
    if a.condOperator = ">" then "above"
    else if a.condOperator = "<" then "below"
    else if a.condOperator = ">=" then "above or equal to"
    else if a.condOperator = "<=" then "below or equal to"
    else if a.condOperator = "==" then "equals"
    else if a.condOperator = "crossover_above" then "crosses above"
    else if a.condOperator = "crossover_below" then "crosses below"
    else a.condOperator
  a.condIndicator.toUpper ++ " " ++ operatorText ++ " " ++ toString a.condValue
    ++ " (" ++ a.condTimeframe ++ ")"

/-- The `pre('save')` middleware of the second schema: default the
description when it is unset. -/
def preSave (a : Alert2) : Alert2 :=
  if a.description = "" then
    { a with description := "Alert for " ++ a.symbol ++ " when " ++ a.conditionText }
  else a

/-- `alertSchema.methods.trigger()`: record the trigger time, bump
`triggerCount`, then save (running the pre-save middleware). -/
def trigger (a : Alert2) (now : ℤ) : Alert2 :=
  preSave { a with lastTriggered := some now, triggerCount := a.triggerCount + 1 }

/-- `alertSchema.methods.reset()`: clear the trigger state. -/
def reset (a : Alert2) : Alert2 :=
  preSave { a with lastTriggered := none, triggerCount := 0 }

end Alert2

/-! ## `evaluateCondition` of `server/middleware/auth.js`

The helper used by the `testAlert` route. It receives only the current
value: no previous sample exists on this code path, and the two crossing
conditions are evaluated as plain comparisons ("would need historical data
to implement properly").
-/

def evaluateCondition (currentValue : ℚ) (condition : String) (targetValue : ℚ) : Bool :=
  if condition = "above" then decide (currentValue > targetValue)
  else if condition = "below" then decide (currentValue < targetValue)
  else if condition = "equals" then decide (|currentValue - targetValue| < 1/1000)
  else if condition = "crosses_above" then decide (currentValue > targetValue)
  else if condition = "crosses_below" then decide (currentValue < targetValue)
  else false

/-! ## Specification-side definitions

Definitions transcribing the specification's wording of the EMA and RSI
computations, to be compared with the source embeddings above.
-/

/-- The specification's EMA recurrence, written with explicit indices:
starting from `e` at index `i`, apply
`ema[j] = (price[j] - ema[j-1]) * multiplier + ema[j-1]` for `k` steps. -/
def emaStepsSpec (prices : List ℚ) (multiplier : ℚ) : ℚ → ℕ → ℕ → ℚ
  | e, _, 0 => e
  | e, i, Nat.succ k =>
      emaStepsSpec prices multiplier ((prices.getD i 0 - e) * multiplier + e) (i + 1) k

/-- The specification's EMA: seed with the arithmetic mean of the first
`period` elements, multiplier `2 / (period + 1)`, and run the recurrence for
every index from `period` to the end of the sequence. -/
def emaRecurrenceSpec (prices : List ℚ) (period : ℕ) : ℚ :=
  let multiplier : ℚ := 2 / (period + 1)
  let seed : ℚ := (prices.take period).sum / period
  emaStepsSpec prices multiplier seed period (prices.length - period)

/-- The specification's per-step gains over the whole series:
`gain = max(Δ, 0)` for each consecutive delta. -/
def specGains (prices : List ℚ) : List ℚ :=
  (List.zipWith (fun a b => a - b) prices.tail prices).map (fun c => max c 0)

/-- The specification's per-step losses over the whole series:
`loss = max(-Δ, 0)` for each consecutive delta. -/
def specLosses (prices : List ℚ) : List ℚ :=
  (List.zipWith (fun a b => a - b) prices.tail prices).map (fun c => max (-c) 0)

/-- Simple average of the trailing `period` elements of a list. -/
def trailingAvg (l : List ℚ) (period : ℕ) : ℚ :=
  (l.drop (l.length - period)).sum / period

/-! ## Sample records used to instantiate universally quantified theorems -/

/-- A concrete price alert of the first schema. -/
def baseAlert1 : Alert1 :=
  ⟨"AAPL", "price", "above", 100, none, 14, "d", none,
   true, true, false, true, false, none, none, 0, none, none, 5⟩

/-- A concrete indicator alert of the second schema. -/
def baseAlert2 : Alert2 :=
  ⟨"AAPL", "price_above", "price", ">", 100, "15min",
   true, 0, none, 60, true, none, true, none, "d", []⟩

/-! ## Helper lemmas -/

/-- On a constant price list the EMA is defined and equals the constant. -/
theorem calculateEMA_replicate (n period : ℕ) (c : ℚ) (hp : period ≠ 0)
    (hn : period ≤ n) : calculateEMA (List.replicate n c) period = some c := by
  unfold calculateEMA
  rw [if_neg (by simp; omega)]
  have hseed : ((List.replicate n c).take period).sum / (period : ℚ) = c := by
    rw [List.take_replicate, min_eq_left hn, List.sum_replicate, nsmul_eq_mul]
    exact mul_div_cancel_left₀ c (by exact_mod_cast hp)
  simp only [hseed]
  congr 1
  rw [List.drop_replicate]
  induction n - period with
  | zero => simp
  | succ k ih => simpa [List.replicate_succ] using ih

/-- The source's left fold over the prices after index `period` agrees with
the specification's index-by-index recurrence. -/
theorem foldl_drop_eq_emaStepsSpec (l : List ℚ) (m : ℚ) :
    ∀ (n i : ℕ) (e : ℚ), l.length - i = n →
      (l.drop i).foldl (fun ema p => (p - ema) * m + ema) e = emaStepsSpec l m e i n := by
  intro n
  induction n with
  | zero =>
      intro i e h
      rw [List.drop_eq_nil_of_le (by omega)]
      rfl
  | succ k ih =>
      intro i e h
      have hi : i < l.length := by omega
      rw [List.drop_eq_getElem_cons hi, List.foldl_cons,
        ih (i + 1) ((l[i] - e) * m + e) (by omega)]
      simp only [emaStepsSpec, List.getD_eq_getElem l 0 hi]

/-! ## Claim theorems -/

/-- C4: for every price sequence shorter than the required window
(`period` for SMA and EMA, `period + 1` for RSI) the indicator functions
return the defined absent-value signal `none`: they are total functions
(never throw) and never return a number. -/
theorem insufficient_data_returns_none (prices : List ℚ) (period : ℕ) :
    (prices.length < period →
      calculateSMA prices period = none ∧ calculateEMA prices period = none) ∧
    (prices.length < period + 1 → calculateRSI prices period = none) := by
  refine ⟨fun h => ⟨?_, ?_⟩, fun h => ?_⟩
  · simp [calculateSMA, h]
  · simp [calculateEMA, h]
  · simp [calculateRSI, h]

/-- Witness for C4 at a concrete two-element sequence with period 5. -/
theorem insufficient_data_returns_none_witness :
    calculateSMA [1, 2] 5 = none ∧ calculateEMA [1, 2] 5 = none ∧
      calculateRSI [1, 2] 5 = none := by
  have h := insufficient_data_returns_none [1, 2] 5
  exact ⟨(h.1 (by norm_num)).1, (h.1 (by norm_num)).2, h.2 (by norm_num)⟩

/-- C5: for every price sequence of length at least `period`, the source
EMA equals the specification's recurrence seeded with the arithmetic mean of
the first `period` elements, with multiplier `2 / (period + 1)`, applied for
every index from `period` to the end of the sequence. -/
theorem ema_matches_spec_recurrence (prices : List ℚ) (period : ℕ)
    (h : period ≤ prices.length) :
    calculateEMA prices period = some (emaRecurrenceSpec prices period) := by
  simp only [calculateEMA, emaRecurrenceSpec]
  rw [if_neg (not_lt.mpr h)]
  exact congrArg some (foldl_drop_eq_emaStepsSpec prices _ _ period _ rfl)

/-- Witness for C5 at a concrete three-element sequence with period 2,
together with the evaluated common value. -/
theorem ema_matches_spec_recurrence_witness :
    calculateEMA [1, 2, 3] 2 = some (emaRecurrenceSpec [1, 2, 3] 2) ∧
      calculateEMA [1, 2, 3] 2 = some (5 / 2) := by
  refine ⟨ema_matches_spec_recurrence [1, 2, 3] 2 (by norm_num), ?_⟩
  norm_num [calculateEMA]

/-- C7 counterexample: on the constant-zero sequence of length 26 both EMAs
are defined and equal `0`, yet `calculateMACD` returns `none` rather than
the difference of the EMAs, because the JavaScript guard
`if (!ema12 || !ema26) return null` treats the number `0` as falsy. -/
theorem macd_zero_ema_cex :
    calculateEMA (List.replicate 26 (0:ℚ)) 12 = some 0 ∧
    calculateEMA (List.replicate 26 (0:ℚ)) 26 = some 0 ∧
    (List.replicate 26 (0:ℚ)).length = 26 ∧
    calculateMACD (List.replicate 26 (0:ℚ)) 12 26 = none := by
  have h12 := calculateEMA_replicate 26 12 0 (by norm_num) (by norm_num)
  have h26 := calculateEMA_replicate 26 26 0 (by norm_num) (by norm_num)
  refine ⟨h12, h26, by simp, ?_⟩
  unfold calculateMACD
  rw [if_neg (by simp), h12, h26]
  simp

/-- C7 amended: for every price sequence of length at least 26 whose fast
and slow EMAs are both nonzero (so that the falsy-number guard does not
fire), `calculateMACD` returns exactly `EMA(prices, 12) - EMA(prices, 26)`
as the MACD line, with the signal line and histogram absent. -/
theorem macd_is_ema_difference (prices : List ℚ) (e12 e26 : ℚ)
    (h : 26 ≤ prices.length)
    (h12 : calculateEMA prices 12 = some e12)
    (h26 : calculateEMA prices 26 = some e26)
    (n12 : e12 ≠ 0) (n26 : e26 ≠ 0) :
    calculateMACD prices 12 26 = some ⟨e12 - e26, none, none⟩ := by
  simp [calculateMACD, h12, h26, n12, n26, not_lt.mpr h]

/-- Witness for C7 at the constant-one sequence of length 26. -/
theorem macd_is_ema_difference_witness :
    calculateMACD (List.replicate 26 (1:ℚ)) 12 26 = some ⟨0, none, none⟩ := by
  have h := macd_is_ema_difference (List.replicate 26 1) 1 1 (by simp)
    (calculateEMA_replicate 26 12 1 (by norm_num) (by norm_num))
    (calculateEMA_replicate 26 26 1 (by norm_num) (by norm_num))
    one_ne_zero one_ne_zero
  simpa using h

/-- Triggering a second-schema alert records the trigger time. -/
theorem Alert2.trigger_lastTriggered (a : Alert2) (t : ℤ) :
    (a.trigger t).lastTriggered = some t := by
  unfold Alert2.trigger Alert2.preSave
  split <;> rfl

/-- Triggering a second-schema alert increments its trigger count. -/
theorem Alert2.trigger_triggerCount (a : Alert2) (t : ℤ) :
    (a.trigger t).triggerCount = a.triggerCount + 1 := by
  unfold Alert2.trigger Alert2.preSave
  split <;> rfl

/-- Triggering a second-schema alert leaves `isActive` unchanged. -/
theorem Alert2.trigger_isActive (a : Alert2) (t : ℤ) :
    (a.trigger t).isActive = a.isActive := by
  unfold Alert2.trigger Alert2.preSave
  split <;> rfl

/-- Triggering a second-schema alert leaves the cooldown period unchanged. -/
theorem Alert2.trigger_cooldownPeriod (a : Alert2) (t : ℤ) :
    (a.trigger t).cooldownPeriod = a.cooldownPeriod := by
  unfold Alert2.trigger Alert2.preSave
  split <;> rfl

/-- C1 counterexample: the `testAlert` helper `evaluateCondition` evaluates
the two crossing conditions although it has only the current sample (it
takes no previous value at all), and it triggers on a plain comparison, so
a single-sample crossover evaluation can return true. -/
theorem crossover_one_sample_cex :
    evaluateCondition 5 "crosses_above" 3 = true ∧
    evaluateCondition 1 "crosses_below" 3 = true := by
  constructor
  · simp [evaluateCondition]
    norm_num
  · simp [evaluateCondition]

/-- C1 amended: in the Alert model's `shouldTrigger` (for an active,
untriggered, unexpired alert) `crosses_above` triggers iff a previous
sample is present with `previous ≤ target` and `current > target`, dually
for `crosses_below`, and a missing previous sample yields false without
error; but the `testAlert` helper `evaluateCondition` receives no previous
sample and evaluates `crosses_above`/`crosses_below` as the plain
comparisons `current > target`/`current < target`. -/
theorem crossover_requires_previous_sample :
    (∀ (a : Alert1) (now : ℤ) (cur : ℚ) (prev : Option ℚ),
        a.isActive = true → a.triggered = false → a.expiryPassed now = false →
        a.condition = "crosses_above" →
        (a.shouldTrigger now cur prev = true ↔
          ∃ p, prev = some p ∧ p ≤ a.targetValue ∧ a.targetValue < cur)) ∧
    (∀ (a : Alert1) (now : ℤ) (cur : ℚ) (prev : Option ℚ),
        a.isActive = true → a.triggered = false → a.expiryPassed now = false →
        a.condition = "crosses_below" →
        (a.shouldTrigger now cur prev = true ↔
          ∃ p, prev = some p ∧ a.targetValue ≤ p ∧ cur < a.targetValue)) ∧
    (∀ (cur target : ℚ),
        (evaluateCondition cur "crosses_above" target = true ↔ target < cur) ∧
        (evaluateCondition cur "crosses_below" target = true ↔ cur < target)) := by
  refine ⟨?_, ?_, ?_⟩
  · intro a now cur prev h1 h2 h3 h4
    cases prev with
    | none => simp [Alert1.shouldTrigger, h1, h2, h3, h4]
    | some p => simp [Alert1.shouldTrigger, h1, h2, h3, h4, and_assoc]
  · intro a now cur prev h1 h2 h3 h4
    cases prev with
    | none => simp [Alert1.shouldTrigger, h1, h2, h3, h4]
    | some p => simp [Alert1.shouldTrigger, h1, h2, h3, h4, and_assoc]
  · intro cur target
    constructor <;> simp [evaluateCondition]

/-- Witness for C1: a concrete crossing alert triggers with a present
previous sample, and the helper triggers at a concrete single sample. -/
theorem crossover_requires_previous_sample_witness :
    ({ baseAlert1 with condition := "crosses_above" } : Alert1).shouldTrigger
        0 150 (some 50) = true ∧
    evaluateCondition 7 "crosses_above" 2 = true := by
  constructor
  · exact (crossover_requires_previous_sample.1
      ({ baseAlert1 with condition := "crosses_above" } : Alert1) 0 150 (some 50)
      rfl rfl rfl rfl).mpr ⟨50, rfl, by norm_num [baseAlert1], by norm_num [baseAlert1]⟩
  · exact (crossover_requires_previous_sample.2.2 7 2).1.mpr (by norm_num)

/-- C2 counterexample: an inactive alert whose `expiresAt` lies in the past
has status `inactive`, not `expired`: the inactive check precedes the expiry
check in the `status` virtual. -/
theorem status_inactive_before_expired_cex :
    ({ baseAlert1 with isActive := false, expiresAt := some 0 } : Alert1).expiryPassed
        1000 = true ∧
    ({ baseAlert1 with isActive := false, expiresAt := some 0 } : Alert1).status
        1000 = "inactive" := by
  constructor
  · simp [Alert1.expiryPassed, baseAlert1]
  · simp [Alert1.status, baseAlert1]

/-- C2 amended: the `status` virtual of the first schema is a pure function
of isActive, the triggered flag and expiresAt-versus-now, checked in the
order inactive, then triggered, then expired, then active (so the expiry
check comes last, not first, and `cooling_down` is never reported); the
`status` virtual of the second schema consults only isActive and
lastTriggered and never reports expiry. -/
theorem status_check_order :
    (∀ (a : Alert1) (now : ℤ), a.isActive = false → a.status now = "inactive") ∧
    (∀ (a : Alert1) (now : ℤ), a.isActive = true → a.triggered = true →
        a.status now = "triggered") ∧
    (∀ (a : Alert1) (now : ℤ), a.isActive = true → a.triggered = false →
        a.expiryPassed now = true → a.status now = "expired") ∧
    (∀ (a : Alert1) (now : ℤ), a.isActive = true → a.triggered = false →
        a.expiryPassed now = false → a.status now = "active") ∧
    (∀ b : Alert2, b.isActive = false → b.status = "inactive") ∧
    (∀ b : Alert2, b.isActive = true → b.lastTriggered ≠ none →
        b.status = "triggered") ∧
    (∀ b : Alert2, b.isActive = true → b.lastTriggered = none →
        b.status = "active") := by
  refine ⟨?_, ?_, ?_, ?_, ?_, ?_, ?_⟩
  · intro a now h; simp [Alert1.status, h]
  · intro a now h1 h2; simp [Alert1.status, h1, h2]
  · intro a now h1 h2 h3; simp [Alert1.status, h1, h2, h3]
  · intro a now h1 h2 h3; simp [Alert1.status, h1, h2, h3]
  · intro b h; simp [Alert2.status, h]
  · intro b h1 h2; simp [Alert2.status, h1, Option.isSome_iff_ne_none.mpr h2]
  · intro b h1 h2; simp [Alert2.status, h1, h2]

/-- Witness for C2 at concrete alerts: a triggered-and-expired alert of the
first schema reports `triggered`, and a fresh active alert of the second
schema reports `active`. -/
theorem status_check_order_witness :
    ({ baseAlert1 with triggered := true, expiresAt := some 0 } : Alert1).status
        1000 = "triggered" ∧
    baseAlert2.status = "active" := by
  exact ⟨status_check_order.2.1 _ 1000 rfl rfl,
    status_check_order.2.2.2.2.2.2 baseAlert2 rfl rfl⟩

/-- C3: an active alert with a 60-minute cooldown that triggers at time `T`
is in cooldown and cannot re-trigger at `T + 30` minutes (its trigger count
stays at its post-trigger value), but can trigger again at `T + 61` minutes,
and doing so increments the trigger count a second time: triggering does not
permanently disable the alert. -/
theorem cooldown_retrigger (a : Alert2) (T : ℤ)
    (hA : a.isActive = true) (hC : a.cooldownPeriod = 60) :
    (a.trigger T).isInCooldown (T + 30 * 60 * 1000) = true ∧
    (a.trigger T).canTrigger (T + 30 * 60 * 1000) = false ∧
    (a.trigger T).triggerCount = a.triggerCount + 1 ∧
    (a.trigger T).canTrigger (T + 61 * 60 * 1000) = true ∧
    ((a.trigger T).trigger (T + 61 * 60 * 1000)).triggerCount =
      a.triggerCount + 2 := by
  have hin : (a.trigger T).isInCooldown (T + 30 * 60 * 1000) = true := by
    simp only [Alert2.isInCooldown, Alert2.trigger_lastTriggered,
      Alert2.trigger_cooldownPeriod, hC, decide_eq_true_eq]
    omega
  have hout : (a.trigger T).isInCooldown (T + 61 * 60 * 1000) = false := by
    simp only [Alert2.isInCooldown, Alert2.trigger_lastTriggered,
      Alert2.trigger_cooldownPeriod, hC, decide_eq_false_iff_not]
    omega
  refine ⟨hin, ?_, Alert2.trigger_triggerCount a T, ?_, ?_⟩
  · unfold Alert2.canTrigger
    rw [hin]
    simp
  · unfold Alert2.canTrigger
    rw [hout, Alert2.trigger_isActive, hA]
    rfl
  · rw [Alert2.trigger_triggerCount, Alert2.trigger_triggerCount]

/-- Witness for C3 at a concrete alert triggered at time 0. -/
theorem cooldown_retrigger_witness :
    (baseAlert2.trigger 0).canTrigger (0 + 30 * 60 * 1000) = false ∧
    (baseAlert2.trigger 0).canTrigger (0 + 61 * 60 * 1000) = true ∧
    ((baseAlert2.trigger 0).trigger (0 + 61 * 60 * 1000)).triggerCount =
      baseAlert2.triggerCount + 2 := by
  have h := cooldown_retrigger baseAlert2 0 rfl rfl
  exact ⟨h.2.1, h.2.2.2.1, h.2.2.2.2⟩

/-- C9: the engine's trigger operation changes only the engine-state fields
(the trigger timestamp and `triggerCount`; in the first schema also the
`triggered` flag and `lastChecked`): every user-owned definition field of
either schema (symbol, alert type, condition, target value, indicator type
and period, cooldown period, isActive, expiresAt, notification settings,
tags, frequency) holds the same value after `trigger()` as before. -/
theorem trigger_frame (a : Alert1) (b : Alert2) (t1 t2 : ℤ) :
    ((a.trigger t1).symbol = a.symbol ∧
     (a.trigger t1).alertType = a.alertType ∧
     (a.trigger t1).condition = a.condition ∧
     (a.trigger t1).targetValue = a.targetValue ∧
     (a.trigger t1).indicatorType = a.indicatorType ∧
     (a.trigger t1).indicatorPeriod = a.indicatorPeriod ∧
     (a.trigger t1).isActive = a.isActive ∧
     (a.trigger t1).expiresAt = a.expiresAt ∧
     (a.trigger t1).emailNotification = a.emailNotification ∧
     (a.trigger t1).smsNotification = a.smsNotification ∧
     (a.trigger t1).pushNotification = a.pushNotification ∧
     (a.trigger t1).frequency = a.frequency ∧
     (a.trigger t1).message = a.message ∧
     (a.trigger t1).triggerCount = a.triggerCount + 1) ∧
    ((b.trigger t2).symbol = b.symbol ∧
     (b.trigger t2).alertType = b.alertType ∧
     (b.trigger t2).condIndicator = b.condIndicator ∧
     (b.trigger t2).condOperator = b.condOperator ∧
     (b.trigger t2).condValue = b.condValue ∧
     (b.trigger t2).condTimeframe = b.condTimeframe ∧
     (b.trigger t2).cooldownPeriod = b.cooldownPeriod ∧
     (b.trigger t2).isActive = b.isActive ∧
     (b.trigger t2).emailEnabled = b.emailEnabled ∧
     (b.trigger t2).emailLastSent = b.emailLastSent ∧
     (b.trigger t2).inAppEnabled = b.inAppEnabled ∧
     (b.trigger t2).inAppLastSent = b.inAppLastSent ∧
     (b.trigger t2).tags = b.tags ∧
     (b.trigger t2).lastTriggered = some t2 ∧
     (b.trigger t2).triggerCount = b.triggerCount + 1) := by
  constructor
  · simp [Alert1.trigger, Alert1.preSave, apply_ite Alert1.symbol,
      apply_ite Alert1.alertType, apply_ite Alert1.condition,
      apply_ite Alert1.targetValue, apply_ite Alert1.indicatorType,
      apply_ite Alert1.indicatorPeriod, apply_ite Alert1.isActive,
      apply_ite Alert1.expiresAt, apply_ite Alert1.emailNotification,
      apply_ite Alert1.smsNotification, apply_ite Alert1.pushNotification,
      apply_ite Alert1.frequency, apply_ite Alert1.message,
      apply_ite Alert1.triggerCount]
  · simp [Alert2.trigger, Alert2.preSave, apply_ite Alert2.symbol,
      apply_ite Alert2.alertType, apply_ite Alert2.condIndicator,
      apply_ite Alert2.condOperator, apply_ite Alert2.condValue,
      apply_ite Alert2.condTimeframe, apply_ite Alert2.cooldownPeriod,
      apply_ite Alert2.isActive, apply_ite Alert2.emailEnabled,
      apply_ite Alert2.emailLastSent, apply_ite Alert2.inAppEnabled,
      apply_ite Alert2.inAppLastSent, apply_ite Alert2.tags,
      apply_ite Alert2.lastTriggered, apply_ite Alert2.triggerCount]

/-- The source's gain selector `change > 0 ? change : 0` is `max(Δ, 0)`. -/
theorem gain_if_eq_max (c : ℚ) : (if 0 < c then c else 0) = max c 0 := by
  rcases lt_or_le 0 c with h | h
  · rw [if_pos h, max_eq_left h.le]
  · rw [if_neg (not_lt.mpr h), max_eq_right h]

/-- The source's loss selector `change < 0 ? |change| : 0` is `max(-Δ, 0)`. -/
theorem loss_if_eq_max (c : ℚ) : (if c < 0 then |c| else 0) = max (-c) 0 := by
  rcases lt_or_le c 0 with h | h
  · rw [if_pos h, abs_of_neg h, max_eq_left (neg_nonneg.mpr h.le)]
  · rw [if_neg (not_lt.mpr h), max_eq_right (neg_nonpos.mpr h)]

/-- In a non-decreasing price list every consecutive delta is non-negative. -/
theorem chain_le_zipWith_nonneg :
    ∀ (l : List ℚ), List.Chain' (· ≤ ·) l →
      ∀ c ∈ List.zipWith (fun a b => a - b) l.tail l, 0 ≤ c
  | [] => by
      intro _ c hc
      simp at hc
  | [a] => by
      intro _ c hc
      simp at hc
  | a :: b :: t => by
      intro h c hc
      rw [List.tail_cons, List.zipWith_cons_cons] at hc
      rcases List.mem_cons.mp hc with rfl | hc
      · have := (List.chain'_cons.mp h).1
        linarith
      · exact chain_le_zipWith_nonneg (b :: t) (List.chain'_cons.mp h).2 c
          (by rw [List.tail_cons]; exact hc)

/-- Arithmetic bounds of the RSI formula when the average loss is positive. -/
theorem rsi_formula_bounds (g l : ℚ) (hg : 0 ≤ g) (hl : 0 ≤ l) (_hne : l ≠ 0) :
    0 ≤ 100 - 100 / (1 + g / l) ∧ 100 - 100 / (1 + g / l) ≤ 100 := by
  have hgl : 0 ≤ g / l := div_nonneg hg hl
  constructor
  · have hle : 100 / (1 + g / l) ≤ 100 := div_le_self (by norm_num) (by linarith)
    linarith
  · have hpos : 0 < 100 / (1 + g / l) := div_pos (by norm_num) (by linarith)
    linarith

/-- C6: for every price sequence of length at least `period + 1`, the RSI
is computed from per-step gains `max(Δ, 0)` and losses `max(-Δ, 0)` over the
whole series, simple-averaging the last `period` of each; it is exactly 100
when the average loss is zero — in particular for every non-decreasing
(only non-negative deltas) series — and `100 - 100 / (1 + avgGain/avgLoss)`
otherwise. -/
theorem rsi_matches_spec (prices : List ℚ) (period : ℕ)
    (h : period + 1 ≤ prices.length) :
    (calculateRSI prices period =
      if trailingAvg (specLosses prices) period = 0 then some 100
      else some (100 - 100 / (1 + trailingAvg (specGains prices) period /
        trailingAvg (specLosses prices) period))) ∧
    (List.Chain' (· ≤ ·) prices → calculateRSI prices period = some 100) := by
  have hg : (fun c : ℚ => if 0 < c then c else 0) = fun c => max c 0 :=
    funext gain_if_eq_max
  have hl : (fun c : ℚ => if c < 0 then |c| else 0) = fun c => max (-c) 0 :=
    funext loss_if_eq_max
  have hlen : ¬ ((List.zipWith (fun a b : ℚ => a - b) prices.tail prices).map
      (fun c => max c 0)).length < period := by
    simp only [List.length_map, List.length_zipWith, List.length_tail, not_lt]
    omega
  have main : calculateRSI prices period =
      if trailingAvg (specLosses prices) period = 0 then some 100
      else some (100 - 100 / (1 + trailingAvg (specGains prices) period /
        trailingAvg (specLosses prices) period)) := by
    simp only [calculateRSI]
    rw [hg, hl, if_neg (not_lt.mpr h), if_neg hlen]
    rfl
  refine ⟨main, fun hchain => ?_⟩
  have hzero : trailingAvg (specLosses prices) period = 0 := by
    unfold trailingAvg
    rw [List.sum_eq_zero, zero_div]
    intro x hx
    have hx' := List.mem_of_mem_drop hx
    unfold specLosses at hx'
    obtain ⟨c, hc, rfl⟩ := List.mem_map.mp hx'
    have h0 : 0 ≤ c := chain_le_zipWith_nonneg prices hchain c hc
    rw [max_eq_right (neg_nonpos.mpr h0)]
  rw [main, if_pos hzero]

/-- Witness for C6 at a concrete strictly increasing three-element sequence
(only non-negative deltas, hence RSI exactly 100). -/
theorem rsi_matches_spec_witness : calculateRSI [1, 2, 3] 2 = some 100 := by
  refine (rsi_matches_spec [1, 2, 3] 2 (by norm_num)).2 ?_
  simp only [List.chain'_cons, List.chain'_singleton, and_true]
  norm_num

/-- C10 (implicit): whenever the RSI returns a number at all, that number
lies in the closed interval `[0, 100]`: the zero-loss branch returns exactly
100, and otherwise the averages are non-negative with a positive loss, so
the formula stays within the interval. -/
theorem rsi_in_range (prices : List ℚ) (period : ℕ) (r : ℚ)
    (h : calculateRSI prices period = some r) : 0 ≤ r ∧ r ≤ 100 := by
  simp only [calculateRSI] at h
  split_ifs at h with h1 h2 h3
  · injection h with h
    subst h
    norm_num
  · injection h with h
    subst h
    refine rsi_formula_bounds _ _ ?_ ?_ h3
    · refine div_nonneg (List.sum_nonneg ?_) (Nat.cast_nonneg period)
      intro x hx
      obtain ⟨c, -, rfl⟩ := List.mem_map.mp (List.mem_of_mem_drop hx)
      split_ifs with hc
      exacts [hc.le, le_rfl]
    · refine div_nonneg (List.sum_nonneg ?_) (Nat.cast_nonneg period)
      intro x hx
      obtain ⟨c, -, rfl⟩ := List.mem_map.mp (List.mem_of_mem_drop hx)
      split_ifs with hc
      exacts [abs_nonneg c, le_rfl]

/-- Witness for C10 at a concrete sequence on which RSI evaluates to 100. -/
theorem rsi_in_range_witness :
    calculateRSI [1, 2, 3] 2 = some 100 ∧ (0:ℚ) ≤ 100 ∧ (100:ℚ) ≤ 100 := by
  have h : calculateRSI [1, 2, 3] 2 = some 100 := by norm_num [calculateRSI]
  exact ⟨h, rsi_in_range [1, 2, 3] 2 100 h⟩

/-- C8 counterexample: on the constant-zero sequence of length 20 the SMA is
defined and equal to `0`, yet `calculateBollingerBands` returns `none`
rather than bands equal to the constant, because the JavaScript guard
`if (!sma) return null` treats the number `0` as falsy. -/
theorem bollinger_zero_constant_cex :
    calculateSMA (List.replicate 20 (0:ℚ)) 20 = some 0 ∧
    calculateBollingerBands (List.replicate 20 (0:ℚ)) 20 2 = none := by
  have hsma : calculateSMA (List.replicate 20 (0:ℚ)) 20 = some 0 := by
    unfold calculateSMA
    rw [if_neg (by simp)]
    simp
  refine ⟨hsma, ?_⟩
  unfold calculateBollingerBands
  rw [if_neg (by simp), hsma]
  simp

/-- C8 amended: for every constant price sequence with a nonzero constant
value and length at least `period > 0`, the Bollinger bands satisfy
`upper = middle = lower = c`, the population standard deviation of the
trailing window being zero. -/
theorem bollinger_constant_bands (c : ℚ) (n period : ℕ) (multiplier : ℚ)
    (hp : period ≠ 0) (hn : period ≤ n) (hc : c ≠ 0) :
    calculateBollingerBands (List.replicate n c) period multiplier =
      some ((c : ℝ), (c : ℝ), (c : ℝ)) := by
  have hrec : (List.replicate n c).drop ((List.replicate n c).length - period)
      = List.replicate period c := by
    rw [List.length_replicate, List.drop_replicate, Nat.sub_sub_self hn]
  have hsma : calculateSMA (List.replicate n c) period = some c := by
    unfold calculateSMA
    rw [if_neg (by simp; omega), hrec, List.sum_replicate, nsmul_eq_mul,
      mul_div_cancel_left₀ c (show (period:ℚ) ≠ 0 by exact_mod_cast hp)]
  unfold calculateBollingerBands
  rw [if_neg (by simp; omega), hsma]
  dsimp only
  rw [if_neg hc, hrec, List.map_replicate]
  simp [sub_self, Real.sqrt_zero]

/-- Witness for C8 at the constant-five sequence of length 20. -/
theorem bollinger_constant_bands_witness :
    calculateBollingerBands (List.replicate 20 (5:ℚ)) 20 2 = some (5, 5, 5) := by
  have h := bollinger_constant_bands 5 20 20 2 (by norm_num) (le_refl 20)
    (by norm_num)
  simpa using h

end StockAlert
